import Mathlib

set_option maxRecDepth 8192

/-!
Verification development for the `melonwer/ibphysiq` question-generation
pipeline (`src/streamlit_app.py`).

The Python source is shallowly embedded: every fallible Python operation is
modelled as a total Lean function returning `Option`, Python values that flow
through `json.loads` and the candidate dictionaries are modelled by the
inductive type `PV`, and the two-stage generation pipeline
(`generate_question_with_progress`, the second definition at line 953 of the
source, which shadows the earlier one of the same name) is modelled as a pure
function from the outcomes of its two remote calls to the final progress
state, optional question, and a flag recording whether the stage-2 client was
invoked.

String operations mirror Python `str` semantics on ASCII text (strip, upper,
split, find/rfind, startswith); all work happens on `List Char`.
-/

/-! ## Python string primitives -/

/-- Characters treated as whitespace by Python `str.strip()` (ASCII range). -/
def pyIsSpace (c : Char) : Bool :=
  c == ' ' || c == '\t' || c == '\n' || c == '\r' || c == '\x0b' || c == '\x0c'

/-- Python `str.strip()` on a character list. -/
def pyStripL (cs : List Char) : List Char :=
  ((cs.dropWhile pyIsSpace).reverse.dropWhile pyIsSpace).reverse

/-- Python `str.upper()` (ASCII). -/
def upperL (cs : List Char) : List Char :=
  cs.map Char.toUpper

/-- Python `str.startswith(pre)`. -/
def startsWithL : List Char → List Char → Bool
  | [], _ => true
  | _ :: _, [] => false
  | p :: ps, c :: cs => p == c && startsWithL ps cs

/-- Python `str.split('\n')`: splits on every newline, keeping empty pieces. -/
def splitNl : List Char → List (List Char)
  | [] => [[]]
  | c :: cs =>
    if c = '\n' then [] :: splitNl cs
    else
      match splitNl cs with
      | l :: ls => (c :: l) :: ls
      | [] => [[c]]

/-- Python `s.split(sep, 1)` when `sep` occurs in `s`: the text before the
first `sep` and the text after it.  `none` when `sep` does not occur
(where Python would return a one-element list and indexing `[1]` would raise). -/
def pyPartition (sep : Char) : List Char → Option (List Char × List Char)
  | [] => none
  | c :: cs =>
    if c = sep then some ([], cs)
    else
      match pyPartition sep cs with
      | some (a, b) => some (c :: a, b)
      | none => none

/-- Python `str.find(ch)`: index of the first occurrence, `-1` if absent. -/
def pyFindL (cs : List Char) (ch : Char) : Int :=
  match cs with
  | [] => -1
  | c :: rest =>
    if c = ch then 0
    else
      let r := pyFindL rest ch
      if r = -1 then -1 else r + 1

/-- Python `str.rfind(ch)`: index of the last occurrence, `-1` if absent. -/
def pyRFindL (cs : List Char) (ch : Char) : Int :=
  match cs with
  | [] => -1
  | c :: rest =>
    let r := pyRFindL rest ch
    if r = -1 then (if c = ch then 0 else -1) else r + 1

/-- Python slice `s[a:b]` for `0 ≤ a ≤ b`. -/
def pySliceL (cs : List Char) (a b : Int) : List Char :=
  (cs.take b.toNat).drop a.toNat

/-- Python falsy-or on strings: `a or b`. -/
def pyOrStr (a b : String) : String :=
  if a = "" then b else a

/-! ## Python values

`PV` models the Python values produced by `json.loads` and stored in the
candidate dictionaries: `None`, booleans, ints, floats (kept as their JSON
source literal; no claim compares float values), strings, lists, and dicts
(association lists in insertion order, duplicate keys resolved last-wins at
the original position, as CPython dicts do). -/

inductive PV where
  | pnone
  | pbool (b : Bool)
  | pint (n : Int)
  | pfloat (lit : String)
  | pstr (s : String)
  | plist (xs : List PV)
  | pdict (kvs : List (String × PV))

/-- Python `k in d` / `d[k]` on a dict: value of the first entry with key `k`. -/
def pyGet (kvs : List (String × PV)) (k : String) : Option PV :=
  match kvs with
  | [] => none
  | (k1, v) :: rest => if k1 = k then some v else pyGet rest k

/-- CPython dict insertion: replace in place if the key exists, else append. -/
def pyDictInsert (kvs : List (String × PV)) (k : String) (v : PV) :
    List (String × PV) :=
  match kvs with
  | [] => [(k, v)]
  | (k1, v1) :: rest =>
    if k1 = k then (k, v) :: rest else (k1, v1) :: pyDictInsert rest k v

/-! ## Stage-1 parser: `parse_llama_response` (src/streamlit_app.py:310-359) -/

/-- The scanner section: before the first option line (`"question"`) or
after it (`"options"`). -/
inductive LSection where
  | questionSec
  | optionsSec
deriving DecidableEq

/-- Accumulator of the line scan inside `parse_llama_response`. -/
structure LlamaScan where
  question_text : List Char
  options : List (List Char)
  answer : List Char
  current_section : LSection
deriving DecidableEq

/-- Regex `^[ABCD]\)`: first char is A-D and the second is a close paren. -/
def matchesOptionL (l : List Char) : Bool :=
  match l with
  | c0 :: c1 :: _ =>
    (c0 == 'A' || c0 == 'B' || c0 == 'C' || c0 == 'D') && c1 == ')'
  | _ => false

/-- The answer-line test: the uppercased line starts with `ANSWER:` or `CORRECT:`. -/
def isAnswerish (u : List Char) : Bool :=
  startsWithL "ANSWER:".data u || startsWithL "CORRECT:".data u

/-- Regex search `[ABCD]`: the first character of the line that is A, B, C or D. -/
def findABCDL : List Char → Option Char
  | [] => none
  | c :: cs =>
    if c = 'A' ∨ c = 'B' ∨ c = 'C' ∨ c = 'D' then some c else findABCDL cs

/-- One iteration of the `for line in lines` loop of `parse_llama_response`. -/
def llamaStep (st : LlamaScan) (rawLine : List Char) : LlamaScan :=
  let line := pyStripL rawLine
  if line = [] then st
  else if matchesOptionL line then
    let st1 :=
      if st.current_section = LSection.questionSec then
        { st with current_section := LSection.optionsSec }
      else st
    { st1 with options := st1.options ++ [line] }
  else if isAnswerish (upperL line) then
    match findABCDL (upperL line) with
    | some a => { st with answer := [a] }
    | none => st
  else
    if st.current_section = LSection.questionSec then
      { st with question_text := st.question_text ++ ' ' :: line }
    else st

/-- Lines fed to the scan: `response_text.strip().split('\n')`. -/
def llamaLines (response_text : String) : List (List Char) :=
  splitNl (pyStripL response_text.data)

/-- The full scan of `parse_llama_response` over the stripped, split input. -/
def llamaScanOf (response_text : String) : LlamaScan :=
  (llamaLines response_text).foldl llamaStep ⟨[], [], [], LSection.questionSec⟩

/-- The `question_text.strip()` performed after the loop. -/
def capturedQuestion (response_text : String) : List Char :=
  pyStripL (llamaScanOf response_text).question_text

/-- Label removal `opt.split(')', 1)[1].strip()` applied to a stored option
line; `none` models the IndexError path (no close paren), which the outer
`try` of `parse_llama_response` converts to a `None` result. -/
def stripOptionLabel (o : List Char) : Option (List Char) :=
  (pyPartition ')' o).map (fun p => pyStripL p.2)

/-- All-or-nothing `Option`-valued map (a Python list comprehension whose
body may raise). -/
def mapOptions (f : List Char → Option (List Char)) :
    List (List Char) → Option (List (List Char))
  | [] => some []
  | x :: xs =>
    match f x, mapOptions f xs with
    | some y, some ys => some (y :: ys)
    | _, _ => none

/-- Embedding of `parse_llama_response(response_text, topic)`
(src/streamlit_app.py:310-359).  Returns the candidate dictionary, or `none`
on the validation failure / exception paths. -/
def parse_llama_response (response_text : String) (topic : String) :
    Option (List (String × PV)) :=
  let st := llamaScanOf response_text
  let question_text := pyStripL st.question_text
  if question_text ≠ [] ∧ st.options.length = 4 ∧
      (st.answer = ['A'] ∨ st.answer = ['B'] ∨ st.answer = ['C'] ∨
        st.answer = ['D']) then
    match mapOptions stripOptionLabel st.options with
    | some opts =>
      some [("question", PV.pstr (String.mk question_text)),
            ("options", PV.plist (opts.map (fun o => PV.pstr (String.mk o)))),
            ("correct_answer", PV.pstr (String.mk st.answer)),
            ("confidence", PV.pfloat "0.8")]
    | none => none
  else none

/-! ## A model of Python `json.loads`

A strict recursive-descent JSON parser over `List Char`, mirroring the
CPython `json` module on the inputs this repository feeds it: the standard
JSON grammar with strict strings (control characters rejected, the standard
escapes plus `\uXXXX`), numbers with the leading-zero restriction (floats
are kept as their source literal in `PV.pfloat`), arrays, and objects with
last-wins duplicate keys.  Recursion is fuelled; `json_loads` supplies fuel
ample for its input, so fuel exhaustion is unreachable. -/

/-- JSON structural whitespace. -/
def jWs (c : Char) : Bool :=
  c == ' ' || c == '\t' || c == '\n' || c == '\r'

/-- Skip JSON whitespace. -/
def skipWs (cs : List Char) : List Char :=
  cs.dropWhile jWs

/-- Hexadecimal digit value. -/
def hexVal (c : Char) : Option Nat :=
  if '0' ≤ c ∧ c ≤ '9' then some (c.toNat - '0'.toNat)
  else if 'a' ≤ c ∧ c ≤ 'f' then some (c.toNat - 'a'.toNat + 10)
  else if 'A' ≤ c ∧ c ≤ 'F' then some (c.toNat - 'A'.toNat + 10)
  else none

/-- JSON string body parser, after the opening quote: returns the decoded
string and the remaining input.  Rejects unescaped control characters and
invalid escapes, as strict-mode `json.loads` does.  A `\uXXXX` escape decodes
to the corresponding character (surrogate halves, which Lean `Char` cannot
hold, never occur in this repository's inputs). -/
def jString (acc : List Char) : List Char → Option (String × List Char)
  | [] => none
  | c :: cs =>
    if c = '"' then some (String.mk acc.reverse, cs)
    else if c = '\\' then
      match cs with
      | [] => none
      | e :: cs1 =>
        if e = '"' then jString ('"' :: acc) cs1
        else if e = '\\' then jString ('\\' :: acc) cs1
        else if e = '/' then jString ('/' :: acc) cs1
        else if e = 'b' then jString ('\x08' :: acc) cs1
        else if e = 'f' then jString ('\x0c' :: acc) cs1
        else if e = 'n' then jString ('\n' :: acc) cs1
        else if e = 'r' then jString ('\r' :: acc) cs1
        else if e = 't' then jString ('\t' :: acc) cs1
        else if e = 'u' then
          match cs1 with
          | h1 :: h2 :: h3 :: h4 :: cs2 =>
            match hexVal h1, hexVal h2, hexVal h3, hexVal h4 with
            | some a, some b, some c3, some d =>
              jString (Char.ofNat (a * 4096 + b * 256 + c3 * 16 + d) :: acc) cs2
            | _, _, _, _ => none
          | _ => none
        else none
    else if c.toNat < 32 then none
    else jString (c :: acc) cs

/-- JSON number parser: `-?(0|[1-9][0-9]*)(\.[0-9]+)?([eE][+-]?[0-9]+)?`.
Pure integers become `PV.pint`; anything with a fraction or exponent becomes
`PV.pfloat` carrying the source literal. -/
def jNumber (cs : List Char) : Option (PV × List Char) :=
  let (neg, cs1) :=
    match cs with
    | '-' :: r => (true, r)
    | _ => (false, cs)
  let intDigits := cs1.takeWhile Char.isDigit
  let rest1 := cs1.dropWhile Char.isDigit
  if intDigits = [] then none
  else if intDigits.length > 1 ∧ intDigits.head? = some '0' then none
  else
    let (fracDigits, rest2, fracOk) :=
      match rest1 with
      | '.' :: r =>
        let fd := r.takeWhile Char.isDigit
        (('.' :: fd), r.dropWhile Char.isDigit, !fd.isEmpty)
      | _ => ([], rest1, true)
    if fracOk = false then none
    else
      let (expDigits, rest3, expOk) :=
        match rest2 with
        | e :: r =>
          if e = 'e' ∨ e = 'E' then
            let (sgn, r1) :=
              match r with
              | s :: r2 => if s = '+' ∨ s = '-' then ([e, s], r2) else ([e], r)
              | [] => ([e], r)
            let ed := r1.takeWhile Char.isDigit
            (sgn ++ ed, r1.dropWhile Char.isDigit, !ed.isEmpty)
          else ([], rest2, true)
        | [] => ([], rest2, true)
      if expOk = false then none
      else
        let lit := (if neg then ['-'] else []) ++ intDigits ++ fracDigits ++ expDigits
        if fracDigits = [] ∧ expDigits = [] then
          let n : Int := Int.ofNat (Nat.ofDigits 10 ((intDigits.map (fun c => c.toNat - '0'.toNat)).reverse))
          some (PV.pint (if neg then -n else n), rest3)
        else
          some (PV.pfloat (String.mk lit), rest3)

mutual

/-- JSON value parser (fuelled). -/
def jValue : Nat → List Char → Option (PV × List Char)
  | 0, _ => none
  | fuel + 1, cs =>
    let cs := skipWs cs
    match cs with
    | [] => none
    | c :: rest =>
      if c = '"' then
        match jString [] rest with
        | some (s, r) => some (PV.pstr s, r)
        | none => none
      else if c = '{' then
        match skipWs rest with
        | '}' :: r => some (PV.pdict [], r)
        | cs2 => jMembers fuel cs2 []
      else if c = '[' then
        match skipWs rest with
        | ']' :: r => some (PV.plist [], r)
        | cs2 => jItems fuel cs2 []
      else if c = 't' then
        match rest with
        | 'r' :: 'u' :: 'e' :: r => some (PV.pbool true, r)
        | _ => none
      else if c = 'f' then
        match rest with
        | 'a' :: 'l' :: 's' :: 'e' :: r => some (PV.pbool false, r)
        | _ => none
      else if c = 'n' then
        match rest with
        | 'u' :: 'l' :: 'l' :: r => some (PV.pnone, r)
        | _ => none
      else if c = '-' ∨ c.isDigit then jNumber cs
      else none

/-- JSON array items after the opening bracket (fuelled). -/
def jItems : Nat → List Char → List PV → Option (PV × List Char)
  | 0, _, _ => none
  | fuel + 1, cs, acc =>
    match jValue fuel cs with
    | none => none
    | some (v, r) =>
      match skipWs r with
      | ',' :: r2 => jItems fuel r2 (acc ++ [v])
      | ']' :: r2 => some (PV.plist (acc ++ [v]), r2)
      | _ => none

/-- JSON object members after the opening brace (fuelled). -/
def jMembers : Nat → List Char → List (String × PV) → Option (PV × List Char)
  | 0, _, _ => none
  | fuel + 1, cs, acc =>
    match skipWs cs with
    | '"' :: r =>
      match jString [] r with
      | none => none
      | some (k, r2) =>
        match skipWs r2 with
        | ':' :: r3 =>
          match jValue fuel r3 with
          | none => none
          | some (v, r4) =>
            let acc2 := pyDictInsert acc k v
            match skipWs r4 with
            | ',' :: r5 => jMembers fuel r5 acc2
            | '}' :: r5 => some (PV.pdict acc2, r5)
            | _ => none
        | _ => none
    | _ => none

end

/-- Embedding of Python `json.loads`: parse one JSON document and reject
trailing non-whitespace (the `Extra data` error).  `none` models every
`json.JSONDecodeError`. -/
def json_loads (s : String) : Option PV :=
  match jValue (2 * s.length + 4) s.data with
  | some (v, rest) => if skipWs rest = [] then some v else none
  | none => none

/-! ## Stage-2 parser: `parse_question_response` (src/streamlit_app.py:471-499) -/

/-- The substring extraction of `parse_question_response`: the text between
the first brace and the last close brace inclusive
(`response_text[response_text.find('\x7b') : response_text.rfind('\x7d') + 1]`),
`none` when `start_idx == -1` or `end_idx <= start_idx`. -/
def extract_json_str (response_text : String) : Option String :=
  let start_idx : Int := pyFindL response_text.data '{'
  let end_idx : Int := pyRFindL response_text.data '}' + 1
  if start_idx ≠ -1 ∧ start_idx < end_idx then
    some (String.mk (pySliceL response_text.data start_idx end_idx))
  else none

/-- Embedding of `parse_question_response(response_text)`
(src/streamlit_app.py:471-499).  Decodes the brace-delimited substring and
validates it: required fields `question`, `options`, `correct_answer`;
`options` a 4-element list; `correct_answer` one of the strings A-D.  Every
exception path of the Python code (decode failure, or no braces found) is a
`none`; a successful decode of a string starting with a brace is necessarily
an object, so the non-dict arm below is unreachable. -/
def parse_question_response (response_text : String) :
    Option (List (String × PV)) :=
  match extract_json_str response_text with
  | none => none
  | some json_str =>
    match json_loads json_str with
    | some (PV.pdict data) =>
      if (pyGet data "question").isSome ∧ (pyGet data "options").isSome ∧
          (pyGet data "correct_answer").isSome then
        match pyGet data "options" with
        | some (PV.plist opts) =>
          if opts.length = 4 then
            match pyGet data "correct_answer" with
            | some (PV.pstr ca) =>
              if ca = "A" ∨ ca = "B" ∨ ca = "C" ∨ ca = "D" then some data
              else none
            | _ => none
          else none
        | _ => none
      else none
    | _ => none

/-! ## Stage-1 client response normalization: `call_lit_api`
(src/streamlit_app.py:268-293)

After a successful HTTP response, `call_lit_api` decodes the body
(`data = response.json()`) and normalizes it.  `lit_extract` models that
normalization, taking the decoded body `data` and the raw body text
(`response.text`). -/

mutual

/-- Python `repr()` of a value (float text is the stored literal; the
repository never interpolates a non-string value in any claim-relevant
path). -/
def pyRepr : PV → String
  | PV.pnone => "None"
  | PV.pbool true => "True"
  | PV.pbool false => "False"
  | PV.pint n => toString n
  | PV.pfloat lit => lit
  | PV.pstr s => "'" ++ s ++ "'"
  | PV.plist xs => "[" ++ pyReprItems xs ++ "]"
  | PV.pdict kvs => "\x7b" ++ pyReprMembers kvs ++ "\x7d"
termination_by structural v => v

/-- Comma-joined `repr` of list items. -/
def pyReprItems : List PV → String
  | [] => ""
  | [x] => pyRepr x
  | x :: xs => pyRepr x ++ ", " ++ pyReprItems xs
termination_by structural xs => xs

/-- Comma-joined `repr` of dict members. -/
def pyReprMembers : List (String × PV) → String
  | [] => ""
  | [(k, v)] => "'" ++ k ++ "': " ++ pyRepr v
  | (k, v) :: kvs => "'" ++ k ++ "': " ++ pyRepr v ++ ", " ++ pyReprMembers kvs
termination_by structural kvs => kvs

end

/-- Python `str()` of a value, as used by f-string interpolation: strings
print verbatim, scalars print as Python prints them, containers print with
`repr` of their elements. -/
def pyStr : PV → String
  | PV.pnone => "None"
  | PV.pbool true => "True"
  | PV.pbool false => "False"
  | PV.pint n => toString n
  | PV.pfloat lit => lit
  | PV.pstr s => s
  | PV.plist xs => "[" ++ pyReprItems xs ++ "]"
  | PV.pdict kvs => "\x7b" ++ pyReprMembers kvs ++ "\x7d"

/-- Whitespace class of Python's regex `\s` (ASCII range). -/
def pyReWs (c : Char) : Bool :=
  c == ' ' || c == '\t' || c == '\n' || c == '\r' || c == '\x0b' || c == '\x0c'

/-- Match attempt of `re.search(r'(closebrace)\s+(.+)', s, re.DOTALL)` at one
close brace: `tail` is the text after the brace.  Greedy `\s+` takes the
maximal whitespace run, backtracking one character when nothing would remain
for `(.+)`; the result is capture group 1. -/
def braceMatchAt (tail : List Char) : Option (List Char) :=
  let k := (tail.takeWhile pyReWs).length
  if k = 0 then none
  else if k < tail.length then some (tail.drop k)
  else if 2 ≤ k then some (tail.drop (k - 1))
  else none

/-- Leftmost search of the pattern above: find the first close brace whose
suffix admits a match, and return capture group 1. -/
def braceSearch : List Char → Option (List Char)
  | [] => none
  | c :: rest =>
    if c = '}' then
      match braceMatchAt rest with
      | some g => some g
      | none => braceSearch rest
    else braceSearch rest

/-- Handling of a string-valued `response` field inside `call_lit_api`
(src/streamlit_app.py:275-286): if the regex finds a close brace followed by
whitespace and trailing text, return the stripped trailing text; otherwise
try to decode the value as JSON and return its `output` field (or the value
itself when decoding fails, the decoded value is not a dict - Python's
`AttributeError` caught by the bare `except` - or `output` is absent). -/
def lit_handle_response (resp_str : String) : PV :=
  match braceSearch resp_str.data with
  | some g => PV.pstr (String.mk (pyStripL g))
  | none =>
    match json_loads resp_str with
    | some (PV.pdict inner) =>
      match pyGet inner "output" with
      | some v => v
      | none => PV.pstr resp_str
    | some _ => PV.pstr resp_str
    | none => PV.pstr resp_str

/-- Embedding of the response normalization of `call_lit_api`
(src/streamlit_app.py:268-293) on a successful HTTP response: `data` is the
decoded JSON body, `raw_text` the body text (`response.text`).  The code
checks, in order, the keys `response` (string values handled by
`lit_handle_response`; non-string values fall through to the raw body),
`generated_text`, and `output`, and otherwise returns the raw body text. -/
def lit_extract (data : PV) (raw_text : String) : PV :=
  match data with
  | PV.pdict kvs =>
    match pyGet kvs "response" with
    | some (PV.pstr resp_str) => lit_handle_response resp_str
    | some _ => PV.pstr raw_text
    | none =>
      match pyGet kvs "generated_text" with
      | some v => v
      | none =>
        match pyGet kvs "output" with
        | some v => v
        | none => PV.pstr raw_text
  | _ => PV.pstr raw_text

/-! ## Stage-2 client and refinement: `get_openrouter_client` and
`refine_with_deepseek` (src/streamlit_app.py:361-435) -/

/-- Outcome of the stage-2 chat-completion call, were it attempted: either an
exception (transport or remote error) or the reply's message content. -/
inductive Stage2Result where
  | transportError
  | reply (content : String)
deriving DecidableEq

/-- The stage-2 configuration surface: the session-state key, the two
recognized secrets (`OPENROUTER_API_KEY` and `openrouter_api_key`), and the
chat outcome.  An empty string models an absent key. -/
structure Stage2Env where
  session_key : String
  secret_key : String
  secret_key_lower : String
  chat : Stage2Result
deriving DecidableEq

/-- Embedding of `get_openrouter_client(api_key)`
(src/streamlit_app.py:419-435): resolve the key from the argument, the
session state, then the two secrets, all via Python falsy `or`; `none` when
every source is empty, otherwise the configured client (carrying its key). -/
def get_openrouter_client (api_key : String) (env : Stage2Env) :
    Option String :=
  let key :=
    pyOrStr (pyOrStr (pyOrStr api_key env.session_key) env.secret_key)
      env.secret_key_lower
  if key = "" then none else some key

/-- Embedding of `refine_with_deepseek(raw_question, topic_name,
openrouter_api_key)` (src/streamlit_app.py:361-416).  Returns the candidate
handed onward together with a flag recording whether the stage-2 chat call
was invoked.  Without a client the raw question is returned untouched; a
transport error or an unparsable reply also falls back to the raw question
(the `except` and `parse_question_response`-`None` paths); a parsable reply
replaces it.  The prompt built from `raw_question` is pure string formatting
with no observable effect and is not modelled. -/
def refine_with_deepseek (raw_question : List (String × PV))
    (topic_name : String) (openrouter_api_key : String) (env : Stage2Env) :
    List (String × PV) × Bool :=
  match get_openrouter_client openrouter_api_key env with
  | none => (raw_question, false)
  | some _ =>
    match env.chat with
    | Stage2Result.transportError => (raw_question, true)
    | Stage2Result.reply content =>
      match parse_question_response content with
      | some refined_data => (refined_data, true)
      | none => (raw_question, true)

/-! ## The pipeline: `generate_question_with_progress`
(src/streamlit_app.py:953-1020, the second definition, which shadows the
first) and the `main` generation gate (src/streamlit_app.py:888-925) -/

/-- Progress stages (src/streamlit_app.py:142-149). -/
inductive ProgressStage where
  | IDLE
  | GENERATING
  | REFINING
  | VALIDATING
  | COMPLETE
  | ERROR
deriving DecidableEq

/-- The session-state progress triple written by the pipeline. -/
structure ProgressState where
  progress_stage : ProgressStage
  progress_value : Nat
  progress_message : String
deriving DecidableEq

/-- Question record (src/streamlit_app.py:128-140).  `question_text`,
`correct_answer` and `explanation` hold whatever Python value the candidate
dictionary supplied (the dataclass does not enforce its annotations);
`options` holds the f-string-formatted strings built at assembly. -/
structure GeneratedQuestion where
  id : String
  topic : String
  question_text : PV
  options : List String
  correct_answer : PV
  explanation : PV
  processing_time : Nat
  generated_at : Nat
  difficulty : String := "standard"
  type : String := "multiple-choice"

/-- The letter label prefixed at assembly: `f"(chr(65+i))) "`. -/
def optionLabel (i : Nat) : String :=
  String.mk [Char.ofNat (65 + i)] ++ ") "

/-- The list comprehension `[f"..." for i, opt in enumerate(options)]`. -/
def labelOptions (i : Nat) : List PV → List String
  | [] => []
  | opt :: rest => (optionLabel i ++ pyStr opt) :: labelOptions (i + 1) rest

/-- Approximation of the completion message
`f"Generated in (processing_time/1000:.1f)s using Llama + DeepSeek pipeline"`
(tenths digit by truncation; no claim concerns this text). -/
def mkCompleteMessage (processing_time : Nat) : String :=
  "Generated in " ++ toString (processing_time / 1000) ++ "." ++
    toString (processing_time % 1000 / 100) ++
    "s using Llama + DeepSeek pipeline"

/-- Construction of the final `GeneratedQuestion`
(src/streamlit_app.py:999-1008).  In Python the field reads
`refined_question['question']` etc. would raise on a malformed candidate;
both candidate producers guarantee the fields, so the `none` arm is
unreachable and models those exceptions for totality. -/
def assembleQuestion (refined_question : List (String × PV))
    (qid topic : String) (processing_time generated_at : Nat) :
    Option GeneratedQuestion :=
  match pyGet refined_question "question",
      pyGet refined_question "options",
      pyGet refined_question "correct_answer" with
  | some q, some (PV.plist opts), some ca =>
    some { id := qid, topic := topic, question_text := q,
           options := labelOptions 0 opts,
           correct_answer := ca,
           explanation := (pyGet refined_question "explanation").getD (PV.pstr ""),
           processing_time := processing_time,
           generated_at := generated_at }
  | _, _, _ => none

/-- Embedding of the two-stage `generate_question_with_progress(topic,
topic_name, openrouter_api_key)` (src/streamlit_app.py:953-1020).
`lit_response` is the value returned by `call_lit_api` (`none` for its error
paths); `qid`, `processing_time` and `generated_at` stand for `uuid4`, the
measured wall time and `datetime.now()`.  Returns the final progress state,
the question (if any), and whether the stage-2 client call was invoked.
A falsy (`None` or empty) stage-1 response or an unparsable stage-1 reply
raises, caught at the bottom: stage `ERROR`, no question.  The empty-dict
fallback `if not refined_question` mirrors Python dict falsiness and the
assembly-failure arm models the unreachable field exceptions. -/
def generate_question_with_progress (topic topic_name : String)
    (openrouter_api_key : String) (lit_response : Option String)
    (s2 : Stage2Env) (qid : String) (processing_time generated_at : Nat) :
    ProgressState × Option GeneratedQuestion × Bool :=
  let errNoResponse : ProgressState :=
    ⟨ProgressStage.ERROR, 25, "Error: Failed to get response from Llama model"⟩
  match lit_response with
  | none => (errNoResponse, none, false)
  | some llama_response =>
    if llama_response = "" then (errNoResponse, none, false)
    else
      match parse_llama_response llama_response topic with
      | none =>
        (⟨ProgressStage.ERROR, 25, "Error: Failed to parse Llama model response"⟩,
          none, false)
      | some raw_question =>
        let rq := refine_with_deepseek raw_question topic_name openrouter_api_key s2
        let refined_question := if rq.1.isEmpty then raw_question else rq.1
        match assembleQuestion refined_question qid topic processing_time generated_at with
        | some question =>
          (⟨ProgressStage.COMPLETE, 100, mkCompleteMessage processing_time⟩,
            some question, rq.2)
        | none =>
          (⟨ProgressStage.ERROR, 85, "Error: question assembly failed"⟩,
            none, rq.2)

/-- Outcome of the generation branch of `main`. -/
inductive MainOutcome where
  | blockedNoKey
  | ran (result : ProgressState × Option GeneratedQuestion × Bool)

/-- Embedding of the generation branch of `main`
(src/streamlit_app.py:888-925): `api_key = st.session_state.openrouter_api_key`;
when it is empty the run is blocked with an error message and the pipeline is
never started, otherwise the pipeline runs with that key (which is also the
session key seen by `get_openrouter_client`). -/
def main_handle_generate (session_key : String)
    (secret_key secret_key_lower : String) (chat : Stage2Result)
    (topic_id topic_name : String) (lit_response : Option String)
    (qid : String) (processing_time generated_at : Nat) : MainOutcome :=
  if session_key = "" then MainOutcome.blockedNoKey
  else
    MainOutcome.ran
      (generate_question_with_progress topic_id topic_name session_key
        lit_response ⟨session_key, secret_key, secret_key_lower, chat⟩ qid
        processing_time generated_at)

/-! ## Concrete inputs used by claim witnesses -/

/-- The stage-1 scenario text of the specification (section 8). -/
def velocityScenario : String :=
  "What is velocity?\nA) Speed\nB) Speed with direction\nC) Acceleration\nD) Force\nANSWER: B"

/-- The raw candidate parsed from `velocityScenario`. -/
def velocityRawCandidate : List (String × PV) :=
  [("question", PV.pstr "What is velocity?"),
   ("options", PV.plist [PV.pstr "Speed", PV.pstr "Speed with direction",
     PV.pstr "Acceleration", PV.pstr "Force"]),
   ("correct_answer", PV.pstr "A"),
   ("confidence", PV.pfloat "0.8")]

/-- The question produced by running the pipeline on `velocityScenario` with
the stage-2 call failing in transport. -/
def velocityScenarioQuestion : GeneratedQuestion :=
  { id := "id", topic := "kinematics",
    question_text := PV.pstr "What is velocity?",
    options := ["A) Speed", "B) Speed with direction", "C) Acceleration",
                "D) Force"],
    correct_answer := PV.pstr "A",
    explanation := PV.pstr "",
    processing_time := 1234, generated_at := 0 }

/-! ## Helper lemmas about the stage-1 scanner -/

/-- A line whose stripped form is empty leaves the scanner state unchanged. -/
theorem llamaStep_of_empty (st : LlamaScan) (l : List Char)
    (h : pyStripL l = []) : llamaStep st l = st := by
  simp [llamaStep, h]

/-- An option line appends its stripped form to `options`, leaves `answer`
and `question_text` unchanged, and moves the scanner to the options section. -/
theorem llamaStep_of_option (st : LlamaScan) (l : List Char)
    (h : matchesOptionL (pyStripL l) = true) :
    llamaStep st l =
      { st with options := st.options ++ [pyStripL l],
                current_section := LSection.optionsSec } := by
  have hne : pyStripL l ≠ [] := by
    intro he
    rw [he] at h
    simp [matchesOptionL] at h
  cases st with
  | mk qt os an sec =>
    cases sec <;> simp [llamaStep, hne, h]

/-- A non-option line leaves `options` unchanged. -/
theorem llamaStep_options_of_not_option (st : LlamaScan) (l : List Char)
    (h : matchesOptionL (pyStripL l) = false) :
    (llamaStep st l).options = st.options := by
  by_cases hne : pyStripL l = []
  · rw [llamaStep_of_empty st l hne]
  · simp only [llamaStep, hne, h]
    simp only [if_neg (by simp [hne] : ¬ pyStripL l = []), Bool.false_eq_true,
      if_false]
    by_cases ha : isAnswerish (upperL (pyStripL l)) = true
    · simp only [ha, if_true]
      cases findABCDL (upperL (pyStripL l)) <;> simp
    · simp only [Bool.not_eq_true] at ha
      simp only [ha, Bool.false_eq_true, if_false]
      by_cases hs : st.current_section = LSection.questionSec <;> simp [hs]

/-- A line that is not an answer line leaves `answer` unchanged. -/
theorem llamaStep_answer_of_not_answerish (st : LlamaScan) (l : List Char)
    (h : isAnswerish (upperL (pyStripL l)) = false) :
    (llamaStep st l).answer = st.answer := by
  by_cases hne : pyStripL l = []
  · rw [llamaStep_of_empty st l hne]
  · by_cases hm : matchesOptionL (pyStripL l) = true
    · rw [llamaStep_of_option st l hm]
    · simp only [Bool.not_eq_true] at hm
      simp only [llamaStep, hne, hm, h]
      simp only [if_neg (by simp [hne] : ¬ pyStripL l = []), Bool.false_eq_true,
        if_false]
      by_cases hs : st.current_section = LSection.questionSec <;> simp [hs]

/-- After the scanner has entered the options section, a non-empty line that
is neither an option line nor an answer line leaves the state unchanged. -/
theorem llamaStep_id_in_options (st : LlamaScan) (l : List Char)
    (hsec : st.current_section = LSection.optionsSec)
    (h1 : pyStripL l ≠ [])
    (h2 : matchesOptionL (pyStripL l) = false)
    (h3 : isAnswerish (upperL (pyStripL l)) = false) :
    llamaStep st l = st := by
  simp [llamaStep, h1, h2, h3, hsec]

/-- The options collected by a scan are the initial ones followed by the
stripped forms of exactly the option-pattern lines, in order. -/
theorem scan_options_eq (lines : List (List Char)) (st : LlamaScan) :
    (lines.foldl llamaStep st).options =
      st.options ++ lines.filterMap
        (fun l => if matchesOptionL (pyStripL l) then some (pyStripL l)
                  else none) := by
  induction lines generalizing st with
  | nil => simp
  | cons l ls ih =>
    rw [List.foldl_cons, ih, List.filterMap_cons]
    by_cases hm : matchesOptionL (pyStripL l) = true
    · rw [llamaStep_of_option st l hm]
      simp [hm]
    · simp only [Bool.not_eq_true] at hm
      rw [llamaStep_options_of_not_option st l hm]
      simp [hm]

/-- If no line of the input is an answer line, the scan's answer is the
initial one. -/
theorem scan_answer_stable (lines : List (List Char)) (st : LlamaScan)
    (h : ∀ l ∈ lines, isAnswerish (upperL (pyStripL l)) = false) :
    (lines.foldl llamaStep st).answer = st.answer := by
  induction lines generalizing st with
  | nil => rfl
  | cons l ls ih =>
    rw [List.foldl_cons]
    rw [ih (llamaStep st l) (fun x hx => h x (List.mem_cons_of_mem l hx))]
    exact llamaStep_answer_of_not_answerish st l (h l (List.mem_cons_self l ls))

/-- A successful `mapOptions` preserves length. -/
theorem mapOptions_length (f : List Char → Option (List Char))
    (xs : List (List Char)) (ys : List (List Char))
    (h : mapOptions f xs = some ys) : ys.length = xs.length := by
  induction xs generalizing ys with
  | nil =>
    simp only [mapOptions] at h
    cases h
    rfl
  | cons x xs ih =>
    simp only [mapOptions] at h
    cases hf : f x with
    | none => rw [hf] at h; cases h
    | some y =>
      rw [hf] at h
      cases hm : mapOptions f xs with
      | none => rw [hm] at h; cases h
      | some ys1 =>
        rw [hm] at h
        cases h
        simp [ih ys1 hm]

/-- `mapOptions` succeeds when `f` succeeds on every element. -/
theorem mapOptions_isSome (f : List Char → Option (List Char))
    (xs : List (List Char)) (h : ∀ x ∈ xs, (f x).isSome) :
    ∃ ys, mapOptions f xs = some ys := by
  induction xs with
  | nil => exact ⟨[], rfl⟩
  | cons x xs ih =>
    obtain ⟨y, hy⟩ := Option.isSome_iff_exists.mp (h x (List.mem_cons_self x xs))
    obtain ⟨ys, hys⟩ := ih (fun z hz => h z (List.mem_cons_of_mem x hz))
    exact ⟨y :: ys, by simp [mapOptions, hy, hys]⟩

/-- An option-pattern line has a close paren, so label stripping succeeds. -/
theorem stripOptionLabel_isSome (o : List Char)
    (h : matchesOptionL o = true) : (stripOptionLabel o).isSome := by
  match o with
  | [] => simp [matchesOptionL] at h
  | [c] => simp [matchesOptionL] at h
  | c0 :: c1 :: rest =>
    simp only [matchesOptionL, Bool.and_eq_true, Bool.or_eq_true, beq_iff_eq]
      at h
    obtain ⟨h0, h1⟩ := h
    have hc0 : c0 ≠ ')' := by
      rcases h0 with ((h | h) | h) | h <;> rw [h] <;> decide
    subst h1
    simp [stripOptionLabel, pyPartition, hc0]

/-- Structure of a successful stage-1 parse: the candidate is exactly the
four-field dictionary, its options list has 4 entries, and its answer is a
single letter A-D. -/
theorem parse_llama_shape (t topic : String) (c : List (String × PV))
    (h : parse_llama_response t topic = some c) :
    ∃ (q : String) (opts : List (List Char)) (a : String),
      c = [("question", PV.pstr q),
           ("options", PV.plist (opts.map (fun o => PV.pstr (String.mk o)))),
           ("correct_answer", PV.pstr a),
           ("confidence", PV.pfloat "0.8")] ∧
      opts.length = 4 ∧ (a = "A" ∨ a = "B" ∨ a = "C" ∨ a = "D") := by
  simp only [parse_llama_response] at h
  split at h
  case isTrue hguard =>
    obtain ⟨hq, hlen, hans⟩ := hguard
    cases hm : mapOptions stripOptionLabel (llamaScanOf t).options with
    | none => rw [hm] at h; cases h
    | some opts =>
      rw [hm] at h
      cases h
      refine ⟨String.mk (pyStripL (llamaScanOf t).question_text), opts,
        String.mk (llamaScanOf t).answer, rfl, ?_, ?_⟩
      · rw [mapOptions_length stripOptionLabel _ _ hm, hlen]
      · rcases hans with h | h | h | h <;> rw [h] <;> simp
  case isFalse => cases h

/-- Length of a conditional `filterMap` is the count of matching elements. -/
theorem filterMap_if_length (p : List Char → Bool)
    (g : List Char → List Char) (lines : List (List Char)) :
    (lines.filterMap
      (fun l => if p l then some (g l) else none)).length =
      lines.countP p := by
  induction lines with
  | nil => rfl
  | cons l ls ih =>
    rw [List.filterMap_cons, List.countP_cons]
    by_cases hp : p l = true
    · simp [hp, ih]
    · simp only [Bool.not_eq_true] at hp
      simp [hp, ih]

/-! ## Claim theorems: the stage-1 parser -/

/-- C3 (code evidence): parsing the specification's velocity scenario text.
The code's answer extraction searches the whole uppercased answer line for
the first letter A-D, and the first such letter of `ANSWER: B` is the `A` of
the word `ANSWER`, so the candidate's correct answer is `A`, not the `B` the
claim expects; question and options parse as the claim states. -/
theorem parse_velocity_scenario_yields_answer_A :
    parse_llama_response velocityScenario "kinematics" =
      some [("question", PV.pstr "What is velocity?"),
            ("options",
              PV.plist [PV.pstr "Speed", PV.pstr "Speed with direction",
                        PV.pstr "Acceleration", PV.pstr "Force"]),
            ("correct_answer", PV.pstr "A"),
            ("confidence", PV.pfloat "0.8")] := rfl

/-- C4: the stage-1 parser returns a candidate if and only if the captured
question text is non-empty, exactly 4 option lines were captured, and the
captured answer is one of A-D; moreover a text with no answer line, or with
fewer than 4 option-pattern lines, parses to `none` (never a partially
filled object). -/
theorem parse_llama_all_or_nothing (text topic : String) :
    ((∃ c, parse_llama_response text topic = some c) ↔
      (capturedQuestion text ≠ [] ∧ (llamaScanOf text).options.length = 4 ∧
        ((llamaScanOf text).answer = ['A'] ∨
          (llamaScanOf text).answer = ['B'] ∨
          (llamaScanOf text).answer = ['C'] ∨
          (llamaScanOf text).answer = ['D']))) ∧
    ((∀ l ∈ llamaLines text, isAnswerish (upperL (pyStripL l)) = false) →
      parse_llama_response text topic = none) ∧
    ((llamaLines text).countP (fun l => matchesOptionL (pyStripL l)) < 4 →
      parse_llama_response text topic = none) := by
  refine ⟨⟨?_, ?_⟩, ?_, ?_⟩
  · rintro ⟨c, hc⟩
    simp only [parse_llama_response] at hc
    split at hc
    case isTrue hguard => exact hguard
    case isFalse => cases hc
  · rintro ⟨hq, hlen, hans⟩
    have hshape : ∀ o ∈ (llamaScanOf text).options, matchesOptionL o = true := by
      intro o ho
      have := scan_options_eq (llamaLines text) ⟨[], [], [], LSection.questionSec⟩
      rw [llamaScanOf] at ho
      rw [this] at ho
      simp only [List.nil_append, List.mem_filterMap] at ho
      obtain ⟨l, _, hl⟩ := ho
      by_cases hm : matchesOptionL (pyStripL l) = true
      · rw [if_pos hm] at hl
        cases hl
        exact hm
      · rw [if_neg hm] at hl
        cases hl
    obtain ⟨opts, hopts⟩ := mapOptions_isSome stripOptionLabel
      (llamaScanOf text).options
      (fun o ho => stripOptionLabel_isSome o (hshape o ho))
    refine ⟨[("question", PV.pstr (String.mk (capturedQuestion text))),
      ("options", PV.plist (opts.map (fun o => PV.pstr (String.mk o)))),
      ("correct_answer", PV.pstr (String.mk (llamaScanOf text).answer)),
      ("confidence", PV.pfloat "0.8")], ?_⟩
    simp only [capturedQuestion] at hq
    simp only [parse_llama_response]
    rw [if_pos (show _ ∧ _ ∧ _ from ⟨hq, hlen, hans⟩), hopts]
    rfl
  · intro hnoans
    simp only [parse_llama_response]
    rw [if_neg]
    intro hguard
    have : (llamaScanOf text).answer = [] := by
      rw [llamaScanOf]
      exact scan_answer_stable (llamaLines text) _ hnoans
    rcases hguard.2.2 with h | h | h | h <;> rw [this] at h <;> cases h
  · intro hcount
    simp only [parse_llama_response]
    rw [if_neg]
    intro hguard
    have hlen : (llamaScanOf text).options.length =
        (llamaLines text).countP (fun l => matchesOptionL (pyStripL l)) := by
      rw [llamaScanOf,
        scan_options_eq (llamaLines text) ⟨[], [], [], LSection.questionSec⟩]
      simp only [List.nil_append]
      exact filterMap_if_length _ _ _
    rw [hguard.2.1] at hlen
    omega

/-- C10: once the scanner has entered the options section, a non-empty line
that is neither an option line nor an answer line is silently discarded: the
step leaves the whole scanner state (question text and options included)
unchanged, and deleting such a line from the input does not change the scan. -/
theorem discarded_lines_after_first_option :
    (∀ (st : LlamaScan) (l : List Char),
        st.current_section = LSection.optionsSec → pyStripL l ≠ [] →
        matchesOptionL (pyStripL l) = false →
        isAnswerish (upperL (pyStripL l)) = false →
        llamaStep st l = st) ∧
    (∀ (st0 : LlamaScan) (ls1 : List (List Char)) (l : List Char)
        (ls2 : List (List Char)),
        (ls1.foldl llamaStep st0).current_section = LSection.optionsSec →
        pyStripL l ≠ [] →
        matchesOptionL (pyStripL l) = false →
        isAnswerish (upperL (pyStripL l)) = false →
        (ls1 ++ l :: ls2).foldl llamaStep st0 =
          (ls1 ++ ls2).foldl llamaStep st0) := by
  refine ⟨llamaStep_id_in_options, ?_⟩
  intro st0 ls1 l ls2 hsec h1 h2 h3
  rw [List.foldl_append, List.foldl_append, List.foldl_cons,
    llamaStep_id_in_options (ls1.foldl llamaStep st0) l hsec h1 h2 h3]

/-- C10 witness: a concrete scan in which a stray line after the first
option line is discarded. -/
theorem discarded_lines_witness :
    (["What?".data, "A) x".data] ++ "stray line".data :: ["B) y".data]).foldl
        llamaStep ⟨[], [], [], LSection.questionSec⟩ =
      (["What?".data, "A) x".data] ++ ["B) y".data]).foldl llamaStep
        ⟨[], [], [], LSection.questionSec⟩ :=
  discarded_lines_after_first_option.2 ⟨[], [], [], LSection.questionSec⟩
    ["What?".data, "A) x".data] "stray line".data ["B) y".data]
    (by decide) (by decide) (by decide) (by decide)

/-- C4 witness: a text with no answer line and a text with only 3 option
lines both parse to `none`. -/
theorem parse_llama_all_or_nothing_witness :
    parse_llama_response "Q?\nA) a\nB) b\nC) c\nD) d" "kinematics" = none ∧
    parse_llama_response "Q?\nA) a\nB) b\nC) c\nANSWER: B" "kinematics" =
      none :=
  ⟨(parse_llama_all_or_nothing "Q?\nA) a\nB) b\nC) c\nD) d" "kinematics").2.1
      (by decide),
   (parse_llama_all_or_nothing "Q?\nA) a\nB) b\nC) c\nANSWER: B"
      "kinematics").2.2 (by decide)⟩

/-! ## Claim theorems: the stage-2 parser -/

/-- C7: the stage-2 parser (a total function: every Python exception path is
a `none`) returns `none` whenever the brace-delimited substring fails to
decode, whenever a required field (`question`, `options`, `correct_answer`)
is absent from the decoded object, whenever `options` is not a 4-element
list, and whenever `correct_answer` is not one of the strings A-D. -/
theorem parse_question_none_conditions (s : String) :
    (∀ js, extract_json_str s = some js → json_loads js = none →
      parse_question_response s = none) ∧
    (∀ js kvs, extract_json_str s = some js →
      json_loads js = some (PV.pdict kvs) →
      (pyGet kvs "question" = none ∨ pyGet kvs "options" = none ∨
        pyGet kvs "correct_answer" = none) →
      parse_question_response s = none) ∧
    (∀ js kvs v, extract_json_str s = some js →
      json_loads js = some (PV.pdict kvs) →
      pyGet kvs "options" = some v →
      (∀ xs, v = PV.plist xs → xs.length ≠ 4) →
      parse_question_response s = none) ∧
    (∀ js kvs v, extract_json_str s = some js →
      json_loads js = some (PV.pdict kvs) →
      pyGet kvs "correct_answer" = some v →
      (∀ ca, v = PV.pstr ca →
        ¬(ca = "A" ∨ ca = "B" ∨ ca = "C" ∨ ca = "D")) →
      parse_question_response s = none) := by
  refine ⟨?_, ?_, ?_, ?_⟩
  · intro js hjs hload
    simp [parse_question_response, hjs, hload]
  · intro js kvs hjs hload hmiss
    simp only [parse_question_response, hjs, hload]
    rw [if_neg]
    intro ⟨h1, h2, h3⟩
    rcases hmiss with h | h | h
    · rw [h] at h1; cases h1
    · rw [h] at h2; cases h2
    · rw [h] at h3; cases h3
  · intro js kvs v hjs hload hv hlen
    simp only [parse_question_response, hjs, hload, hv]
    split
    case isFalse => rfl
    case isTrue =>
      cases v with
      | plist xs => simp [hlen xs rfl]
      | pnone => rfl
      | pbool b => rfl
      | pint n => rfl
      | pfloat lit => rfl
      | pstr s1 => rfl
      | pdict kvs1 => rfl
  · intro js kvs v hjs hload hv hca
    simp only [parse_question_response, hjs, hload]
    split
    case isFalse => rfl
    case isTrue =>
      cases hopt : pyGet kvs "options" with
      | none => rfl
      | some ov =>
        cases ov with
        | pnone => rfl
        | pbool b => rfl
        | pint n => rfl
        | pfloat lit => rfl
        | pstr s1 => rfl
        | pdict kvs1 => rfl
        | plist xs =>
          by_cases hxs : xs.length = 4
          · cases v with
            | pstr ca => simp [hxs, hv, hca ca rfl]
            | pnone => simp [hxs, hv]
            | pbool b => simp [hxs, hv]
            | pint n => simp [hxs, hv]
            | pfloat lit => simp [hxs, hv]
            | plist xs1 => simp [hxs, hv]
            | pdict kvs1 => simp [hxs, hv]
          · simp [hxs]

/-- C7 witness: concrete inputs exercising each `none` condition - an
undecodable brace substring, a missing `correct_answer` field, a 3-element
`options` list, and a `correct_answer` of `E`. -/
theorem parse_question_none_witness :
    parse_question_response "\x7b oops \x7d" = none ∧
    parse_question_response
      "\x7b\"question\":\"Q\",\"options\":[\"a\",\"b\",\"c\",\"d\"]\x7d" =
      none ∧
    parse_question_response
      "\x7b\"question\":\"Q\",\"options\":[\"a\",\"b\",\"c\"],\"correct_answer\":\"A\"\x7d" =
      none ∧
    parse_question_response
      "\x7b\"question\":\"Q\",\"options\":[\"a\",\"b\",\"c\",\"d\"],\"correct_answer\":\"E\"\x7d" =
      none :=
  ⟨(parse_question_none_conditions "\x7b oops \x7d").1 "\x7b oops \x7d" rfl
      rfl,
   (parse_question_none_conditions
      "\x7b\"question\":\"Q\",\"options\":[\"a\",\"b\",\"c\",\"d\"]\x7d").2.1
      "\x7b\"question\":\"Q\",\"options\":[\"a\",\"b\",\"c\",\"d\"]\x7d"
      [("question", PV.pstr "Q"),
       ("options", PV.plist [PV.pstr "a", PV.pstr "b", PV.pstr "c",
         PV.pstr "d"])]
      rfl rfl (Or.inr (Or.inr rfl)),
   (parse_question_none_conditions
      "\x7b\"question\":\"Q\",\"options\":[\"a\",\"b\",\"c\"],\"correct_answer\":\"A\"\x7d").2.2.1
      "\x7b\"question\":\"Q\",\"options\":[\"a\",\"b\",\"c\"],\"correct_answer\":\"A\"\x7d"
      [("question", PV.pstr "Q"),
       ("options", PV.plist [PV.pstr "a", PV.pstr "b", PV.pstr "c"]),
       ("correct_answer", PV.pstr "A")]
      (PV.plist [PV.pstr "a", PV.pstr "b", PV.pstr "c"])
      rfl rfl rfl (fun xs h => by cases h; decide),
   (parse_question_none_conditions
      "\x7b\"question\":\"Q\",\"options\":[\"a\",\"b\",\"c\",\"d\"],\"correct_answer\":\"E\"\x7d").2.2.2
      "\x7b\"question\":\"Q\",\"options\":[\"a\",\"b\",\"c\",\"d\"],\"correct_answer\":\"E\"\x7d"
      [("question", PV.pstr "Q"),
       ("options", PV.plist [PV.pstr "a", PV.pstr "b", PV.pstr "c",
         PV.pstr "d"]),
       ("correct_answer", PV.pstr "E")]
      (PV.pstr "E")
      rfl rfl rfl (fun ca h => by cases h; decide)⟩

/-- C8: the stage-2 parser decodes the substring between the first open
brace and the last close brace, so leading prose is ignored and the
specification's scenario reply parses to the corresponding candidate. -/
theorem parse_question_ignores_prose :
    parse_question_response
      "Here you go: \x7b\"question\":\"Q\",\"options\":[\"a\",\"b\",\"c\",\"d\"],\"correct_answer\":\"C\",\"explanation\":\"E\"\x7d" =
      some [("question", PV.pstr "Q"),
            ("options", PV.plist [PV.pstr "a", PV.pstr "b", PV.pstr "c",
              PV.pstr "d"]),
            ("correct_answer", PV.pstr "C"),
            ("explanation", PV.pstr "E")] := rfl

/-- Structure of a successful stage-2 parse: the required fields are
present, `options` is a 4-element list, and `correct_answer` is one of the
strings A-D; in particular the dictionary is non-empty. -/
theorem parse_question_shape (s : String) (d : List (String × PV))
    (h : parse_question_response s = some d) :
    (pyGet d "question").isSome ∧
    (∃ opts, pyGet d "options" = some (PV.plist opts) ∧ opts.length = 4) ∧
    (∃ ca, pyGet d "correct_answer" = some (PV.pstr ca) ∧
      (ca = "A" ∨ ca = "B" ∨ ca = "C" ∨ ca = "D")) ∧
    d.isEmpty = false := by
  simp only [parse_question_response] at h
  split at h
  case h_1 => cases h
  case h_2 js hjs =>
    split at h
    case h_1 kvs hkvs =>
      split at h
      case isTrue hguard =>
        split at h
        case h_1 opts hopts =>
          split at h
          case isTrue hlen =>
            split at h
            case h_1 ca hca =>
              split at h
              case isTrue hin =>
                cases h
                refine ⟨hguard.1, ⟨opts, hopts, hlen⟩, ⟨ca, hca, hin⟩, ?_⟩
                cases hd : d with
                | nil => rw [hd] at hca; cases hca
                | cons p rest => rfl
              case isFalse => cases h
            case h_2 => cases h
          case isFalse => cases h
        case h_2 => cases h
      case isFalse => cases h
    case h_2 => cases h

/-! ## Claim theorems: the stage-1 client response normalization -/

/-- C6 counterexample: on a body carrying both a `response` and a
`generated_text` field, `call_lit_api` returns the handled `response` value,
not the `generated_text` value the claimed strategy order (generated_text
first) would produce. -/
theorem lit_extract_response_first_counterexample :
    lit_extract (PV.pdict [("response", PV.pstr "hello"),
        ("generated_text", PV.pstr "world")]) "raw" = PV.pstr "hello" ∧
    PV.pstr "hello" ≠ PV.pstr "world" :=
  ⟨rfl, by intro h; injection h with h1; exact absurd h1 (by decide)⟩

/-- C6 amended: the stage-1 client tries the body keys in the order
`response` (string values handled by the embedded-JSON/trailing-text logic,
non-string values falling through to the raw body), then `generated_text`,
then `output`, and otherwise - also for non-dict bodies - returns the decoded
body text as-is. -/
theorem lit_extract_strategy_order (kvs : List (String × PV))
    (raw_text : String) :
    (∀ s, pyGet kvs "response" = some (PV.pstr s) →
      lit_extract (PV.pdict kvs) raw_text = lit_handle_response s) ∧
    (∀ v, pyGet kvs "response" = some v → (∀ s, v ≠ PV.pstr s) →
      lit_extract (PV.pdict kvs) raw_text = PV.pstr raw_text) ∧
    (pyGet kvs "response" = none →
      ∀ v, pyGet kvs "generated_text" = some v →
        lit_extract (PV.pdict kvs) raw_text = v) ∧
    (pyGet kvs "response" = none → pyGet kvs "generated_text" = none →
      ∀ v, pyGet kvs "output" = some v →
        lit_extract (PV.pdict kvs) raw_text = v) ∧
    (pyGet kvs "response" = none → pyGet kvs "generated_text" = none →
      pyGet kvs "output" = none →
      lit_extract (PV.pdict kvs) raw_text = PV.pstr raw_text) ∧
    (∀ d, (∀ kvs1, d ≠ PV.pdict kvs1) →
      lit_extract d raw_text = PV.pstr raw_text) := by
  refine ⟨?_, ?_, ?_, ?_, ?_, ?_⟩
  · intro s h
    simp [lit_extract, h]
  · intro v h hv
    cases v with
    | pstr s => exact absurd rfl (hv s)
    | pnone => simp [lit_extract, h]
    | pbool b => simp [lit_extract, h]
    | pint n => simp [lit_extract, h]
    | pfloat lit => simp [lit_extract, h]
    | plist xs => simp [lit_extract, h]
    | pdict kvs1 => simp [lit_extract, h]
  · intro h v hg
    simp [lit_extract, h, hg]
  · intro h hg v ho
    simp [lit_extract, h, hg, ho]
  · intro h hg ho
    simp [lit_extract, h, hg, ho]
  · intro d hd
    cases d with
    | pdict kvs1 => exact absurd rfl (hd kvs1)
    | pnone => rfl
    | pbool b => rfl
    | pint n => rfl
    | pfloat lit => rfl
    | pstr s => rfl
    | plist xs => rfl

/-- C6 amended witness: each strategy applied at a concrete decoded body. -/
theorem lit_extract_strategy_order_witness :
    lit_extract (PV.pdict [("response", PV.pstr "hi")]) "raw" =
      lit_handle_response "hi" ∧
    lit_extract (PV.pdict [("response", PV.pint 3)]) "raw" = PV.pstr "raw" ∧
    lit_extract (PV.pdict [("generated_text", PV.pstr "g")]) "raw" =
      PV.pstr "g" ∧
    lit_extract (PV.pdict [("output", PV.pstr "o")]) "raw" = PV.pstr "o" ∧
    lit_extract (PV.pdict []) "raw" = PV.pstr "raw" ∧
    lit_extract (PV.pstr "x") "raw" = PV.pstr "raw" :=
  ⟨(lit_extract_strategy_order [("response", PV.pstr "hi")] "raw").1 "hi" rfl,
   (lit_extract_strategy_order [("response", PV.pint 3)] "raw").2.1
     (PV.pint 3) rfl (fun s h => by cases h),
   (lit_extract_strategy_order [("generated_text", PV.pstr "g")] "raw").2.2.1
     rfl (PV.pstr "g") rfl,
   (lit_extract_strategy_order [("output", PV.pstr "o")] "raw").2.2.2.1
     rfl rfl (PV.pstr "o") rfl,
   (lit_extract_strategy_order [] "raw").2.2.2.2.1 rfl rfl rfl,
   (lit_extract_strategy_order [] "raw").2.2.2.2.2 (PV.pstr "x")
     (fun kvs1 h => by cases h)⟩

/-! ## Helper lemmas about the pipeline -/

/-- When the stage-2 client is unobtainable, the call errors, or the reply
does not parse, refinement hands the raw question onward. -/
theorem refine_fails_gives_raw (raw : List (String × PV)) (tn key : String)
    (env : Stage2Env)
    (h : get_openrouter_client key env = none ∨
      env.chat = Stage2Result.transportError ∨
      (∃ content, env.chat = Stage2Result.reply content ∧
        parse_question_response content = none)) :
    ∃ b, refine_with_deepseek raw tn key env = (raw, b) := by
  rcases h with h | h | ⟨content, hc, hp⟩
  · exact ⟨false, by simp [refine_with_deepseek, h]⟩
  · cases hcl : get_openrouter_client key env with
    | none => exact ⟨false, by simp [refine_with_deepseek, hcl]⟩
    | some k => exact ⟨true, by simp [refine_with_deepseek, hcl, h]⟩
  · cases hcl : get_openrouter_client key env with
    | none => exact ⟨false, by simp [refine_with_deepseek, hcl]⟩
    | some k => exact ⟨true, by simp [refine_with_deepseek, hcl, hc, hp]⟩

/-- The candidate handed onward by refinement is the raw question or a
successfully parsed stage-2 reply. -/
theorem refine_result_cases (raw : List (String × PV)) (tn key : String)
    (env : Stage2Env) :
    (refine_with_deepseek raw tn key env).1 = raw ∨
    ∃ content d, env.chat = Stage2Result.reply content ∧
      parse_question_response content = some d ∧
      (refine_with_deepseek raw tn key env).1 = d := by
  cases hcl : get_openrouter_client key env with
  | none => left; simp [refine_with_deepseek, hcl]
  | some k =>
    cases hch : env.chat with
    | transportError => left; simp [refine_with_deepseek, hcl, hch]
    | reply content =>
      cases hp : parse_question_response content with
      | none => left; simp [refine_with_deepseek, hcl, hch, hp]
      | some d =>
        right
        exact ⟨content, d, rfl, hp, by simp [refine_with_deepseek, hcl, hch, hp]⟩

/-- `labelOptions` preserves length. -/
theorem labelOptions_length (i : Nat) (os : List PV) :
    (labelOptions i os).length = os.length := by
  induction os generalizing i with
  | nil => rfl
  | cons o os ih => simp [labelOptions, ih]

/-- Every entry of `labelOptions` starts with its letter label. -/
theorem labelOptions_get (i j : Nat) (os : List PV) (h : j < os.length) :
    ∃ s, (labelOptions i os)[j]? = some (optionLabel (i + j) ++ s) := by
  induction os generalizing i j with
  | nil => simp at h
  | cons o os ih =>
    cases j with
    | zero => exact ⟨pyStr o, by simp [labelOptions]⟩
    | succ j =>
      have hj : j < os.length := by simpa using h
      obtain ⟨s, hs⟩ := ih (i + 1) j hj
      refine ⟨s, ?_⟩
      have : i + 1 + j = i + (j + 1) := by omega
      rw [labelOptions]
      simpa [this] using hs

/-- Assembly at a candidate with the three required fields present. -/
theorem assembleQuestion_eq (refined : List (String × PV))
    (qid topic : String) (pt gat : Nat) (qv : PV) (opts : List PV) (ca : PV)
    (h1 : pyGet refined "question" = some qv)
    (h2 : pyGet refined "options" = some (PV.plist opts))
    (h3 : pyGet refined "correct_answer" = some ca) :
    assembleQuestion refined qid topic pt gat =
      some { id := qid, topic := topic, question_text := qv,
             options := labelOptions 0 opts, correct_answer := ca,
             explanation := (pyGet refined "explanation").getD (PV.pstr ""),
             processing_time := pt, generated_at := gat } := by
  simp [assembleQuestion, h1, h2, h3]

/-- When stage-1 succeeds and refinement hands back the raw candidate, the
pipeline completes with the question assembled from that candidate. -/
theorem generate_completes_with_candidate (topic tn key t qid : String)
    (s2 : Stage2Env) (pt gat : Nat) (raw : List (String × PV)) (b : Bool)
    (ht : t ≠ "") (hp : parse_llama_response t topic = some raw)
    (hr : refine_with_deepseek raw tn key s2 = (raw, b)) :
    ∃ q, generate_question_with_progress topic tn key (some t) s2 qid pt gat =
        (⟨ProgressStage.COMPLETE, 100, mkCompleteMessage pt⟩, some q, b) ∧
      assembleQuestion raw qid topic pt gat = some q := by
  obtain ⟨q0, opts, a, hc, hlen, hans⟩ := parse_llama_shape t topic raw hp
  have step : generate_question_with_progress topic tn key (some t) s2 qid pt
      gat =
      (match assembleQuestion
          (if (refine_with_deepseek raw tn key s2).1.isEmpty then raw
           else (refine_with_deepseek raw tn key s2).1) qid topic pt gat with
       | some question =>
         (⟨ProgressStage.COMPLETE, 100, mkCompleteMessage pt⟩, some question,
           (refine_with_deepseek raw tn key s2).2)
       | none =>
         (⟨ProgressStage.ERROR, 85, "Error: question assembly failed"⟩, none,
           (refine_with_deepseek raw tn key s2).2)) := by
    simp only [generate_question_with_progress]
    rw [if_neg ht, hp]
  rw [step, hr]
  subst hc
  exact ⟨_, rfl, rfl⟩

/-! ## Claim theorems: the pipeline -/

/-- C1: when the stage-1 call, parse and validation succeed but stage-2
refinement fails - no client available, a transport error, or an unparsable
stage-2 reply - the run completes (stage `Complete`, never `Error`) and the
final question is assembled from the stage-1 candidate. -/
theorem stage2_failure_falls_back (topic tn key t qid : String)
    (s2 : Stage2Env) (pt gat : Nat) (raw : List (String × PV))
    (ht : t ≠ "") (hp : parse_llama_response t topic = some raw)
    (hfail : get_openrouter_client key s2 = none ∨
      s2.chat = Stage2Result.transportError ∨
      (∃ content, s2.chat = Stage2Result.reply content ∧
        parse_question_response content = none)) :
    ∃ q b, generate_question_with_progress topic tn key (some t) s2 qid pt
        gat =
        (⟨ProgressStage.COMPLETE, 100, mkCompleteMessage pt⟩, some q, b) ∧
      assembleQuestion raw qid topic pt gat = some q ∧
      ProgressStage.COMPLETE ≠ ProgressStage.ERROR := by
  obtain ⟨b, hr⟩ := refine_fails_gives_raw raw tn key s2 hfail
  obtain ⟨q, hg, ha⟩ :=
    generate_completes_with_candidate topic tn key t qid s2 pt gat raw b ht hp
      hr
  exact ⟨q, b, hg, ha, by decide⟩

/-- C1 witness: the scenario text with no stage-2 key configured anywhere
(client unobtainable) completes with the stage-1 candidate. -/
theorem stage2_failure_falls_back_witness :
    ∃ q b, generate_question_with_progress "kinematics" "Kinematics" ""
        (some velocityScenario) ⟨"", "", "", Stage2Result.transportError⟩
        "id" 1234 0 =
        (⟨ProgressStage.COMPLETE, 100, mkCompleteMessage 1234⟩, some q, b) ∧
      assembleQuestion velocityRawCandidate "id" "kinematics" 1234 0 =
        some q ∧
      ProgressStage.COMPLETE ≠ ProgressStage.ERROR :=
  stage2_failure_falls_back "kinematics" "Kinematics" "" velocityScenario
    "id" ⟨"", "", "", Stage2Result.transportError⟩ 1234 0
    velocityRawCandidate (by decide) rfl (Or.inl rfl)

/-- C2: when the stage-1 call returns no text (`None` or empty) or its
output fails to parse or validate, the run ends in the `Error` stage with no
question and the stage-2 client is never invoked. -/
theorem stage1_failure_is_fatal (topic tn key : String)
    (lit_response : Option String) (s2 : Stage2Env) (qid : String)
    (pt gat : Nat)
    (h : lit_response = none ∨ lit_response = some "" ∨
      (∃ t, lit_response = some t ∧ parse_llama_response t topic = none)) :
    ∃ msg, generate_question_with_progress topic tn key lit_response s2 qid
      pt gat = (⟨ProgressStage.ERROR, 25, msg⟩, none, false) := by
  rcases h with h | h | ⟨t, hlit, hparse⟩
  · subst h
    exact ⟨"Error: Failed to get response from Llama model", rfl⟩
  · subst h
    exact ⟨"Error: Failed to get response from Llama model", rfl⟩
  · subst hlit
    by_cases ht : t = ""
    · subst ht
      exact ⟨"Error: Failed to get response from Llama model", rfl⟩
    · refine ⟨"Error: Failed to parse Llama model response", ?_⟩
      simp only [generate_question_with_progress]
      rw [if_neg ht, hparse]

/-- C2 witness: a failed stage-1 call (no response at all) and a stage-1
reply with only 3 option lines both end in `Error` without invoking
stage 2. -/
theorem stage1_failure_is_fatal_witness :
    (∃ msg, generate_question_with_progress "kinematics" "Kinematics" "k"
      none ⟨"k", "", "", Stage2Result.reply "x"⟩ "id" 5 0 =
      (⟨ProgressStage.ERROR, 25, msg⟩, none, false)) ∧
    (∃ msg, generate_question_with_progress "kinematics" "Kinematics" "k"
      (some "Q?\nA) a\nB) b\nC) c\nANSWER: B")
      ⟨"k", "", "", Stage2Result.reply "x"⟩ "id" 5 0 =
      (⟨ProgressStage.ERROR, 25, msg⟩, none, false)) :=
  ⟨stage1_failure_is_fatal "kinematics" "Kinematics" "k" none
      ⟨"k", "", "", Stage2Result.reply "x"⟩ "id" 5 0 (Or.inl rfl),
   stage1_failure_is_fatal "kinematics" "Kinematics" "k"
      (some "Q?\nA) a\nB) b\nC) c\nANSWER: B")
      ⟨"k", "", "", Stage2Result.reply "x"⟩ "id" 5 0
      (Or.inr (Or.inr ⟨"Q?\nA) a\nB) b\nC) c\nANSWER: B", rfl, rfl⟩))⟩

/-- C5 counterexample: with no OpenRouter key configured in any recognized
source, the `main` generation branch blocks the run outright (it reports a
configuration error and never starts the pipeline), even though stage 1
would succeed - the claim's "rather than blocking the run" fails. -/
theorem missing_key_blocks_main :
    main_handle_generate "" "" "" Stage2Result.transportError "kinematics"
      "Kinematics" (some velocityScenario) "id" 1234 0 =
      MainOutcome.blockedNoKey := rfl

/-- C5 amended: with no key configured in any recognized source the
refinement stage itself short-circuits to the fallback - the client is
`None`, no stage-2 call is attempted, the stage-1 candidate is handed on,
and an invoked pipeline completes with it - but the `main` entry point
blocks the run entirely when its session key is empty. -/
theorem missing_key_short_circuits_refinement :
    (∀ chat, get_openrouter_client "" ⟨"", "", "", chat⟩ = none) ∧
    (∀ raw tn chat,
      refine_with_deepseek raw tn "" ⟨"", "", "", chat⟩ = (raw, false)) ∧
    (∀ topic tn t qid pt gat chat (raw : List (String × PV)), t ≠ "" →
      parse_llama_response t topic = some raw →
      ∃ q, generate_question_with_progress topic tn "" (some t)
          ⟨"", "", "", chat⟩ qid pt gat =
          (⟨ProgressStage.COMPLETE, 100, mkCompleteMessage pt⟩, some q,
            false) ∧
        assembleQuestion raw qid topic pt gat = some q) ∧
    (∀ tid tn lit chat qid pt gat,
      main_handle_generate "" "" "" chat tid tn lit qid pt gat =
        MainOutcome.blockedNoKey) := by
  refine ⟨fun chat => rfl, fun raw tn chat => rfl, ?_, fun _ _ _ _ _ _ _ => rfl⟩
  intro topic tn t qid pt gat chat raw ht hp
  exact generate_completes_with_candidate topic tn "" t qid
    ⟨"", "", "", chat⟩ pt gat raw false ht hp rfl

/-- C5 amended witness: a concrete keyless run invoked directly completes
with the stage-1 candidate and never attempts a stage-2 call. -/
theorem missing_key_short_circuits_witness :
    ∃ q, generate_question_with_progress "kinematics" "Kinematics" ""
        (some velocityScenario) ⟨"", "", "", Stage2Result.reply "no json"⟩
        "id" 7 0 =
        (⟨ProgressStage.COMPLETE, 100, mkCompleteMessage 7⟩, some q, false) ∧
      assembleQuestion velocityRawCandidate "id" "kinematics" 7 0 = some q :=
  missing_key_short_circuits_refinement.2.2.1 "kinematics" "Kinematics"
    velocityScenario "id" 7 0 (Stage2Result.reply "no json")
    velocityRawCandidate (by decide) rfl

/-- C9 counterexample: a successful pipeline run stores its options WITH the
letter labels baked in (`"A) Speed"`), not as the plain text (`"Speed"`) the
claim's "stored as plain text internally" requires. -/
theorem options_stored_with_labels_counterexample :
    ((generate_question_with_progress "kinematics" "Kinematics" ""
        (some velocityScenario) ⟨"", "", "", Stage2Result.transportError⟩
        "id" 1234 0).2.1.map (fun q => q.options)) =
      some ["A) Speed", "B) Speed with direction", "C) Acceleration",
        "D) Force"] ∧
    ("A) Speed" : String) ≠ "Speed" := ⟨rfl, by decide⟩

/-- A question assembled from a candidate whose `options` is a 4-element
list and whose `correct_answer` is a letter A-D has exactly 4 stored
options, each prefixed by its letter label, and that letter as its answer. -/
theorem final_question_shape (refined : List (String × PV))
    (qid topic : String) (pt gat : Nat) (q : GeneratedQuestion)
    (hopts : ∃ opts, pyGet refined "options" = some (PV.plist opts) ∧
      opts.length = 4)
    (hca : ∃ ca, pyGet refined "correct_answer" = some (PV.pstr ca) ∧
      (ca = "A" ∨ ca = "B" ∨ ca = "C" ∨ ca = "D"))
    (h : assembleQuestion refined qid topic pt gat = some q) :
    q.options.length = 4 ∧
    (∃ ca, q.correct_answer = PV.pstr ca ∧
      (ca = "A" ∨ ca = "B" ∨ ca = "C" ∨ ca = "D")) ∧
    (∀ j, j < 4 → ∃ s1, q.options[j]? = some (optionLabel j ++ s1)) := by
  obtain ⟨opts, ho, hlen⟩ := hopts
  obtain ⟨ca, hc, hin⟩ := hca
  cases hq : pyGet refined "question" with
  | none =>
    simp only [assembleQuestion, hq, ho, hc] at h
    exact Option.noConfusion h
  | some qv =>
    simp only [assembleQuestion, hq, ho, hc, Option.some.injEq] at h
    subst h
    refine ⟨?_, ⟨ca, rfl, hin⟩, ?_⟩
    · rw [labelOptions_length, hlen]
    · intro j hj
      have hj2 : j < opts.length := by omega
      obtain ⟨s, hs⟩ := labelOptions_get 0 j opts hj2
      exact ⟨s, by simpa using hs⟩

/-- Inversion of a successful pipeline run: the run came from a non-empty
stage-1 reply whose parse succeeded, and the final question was assembled
from either that raw candidate or a successfully parsed stage-2 reply. -/
theorem generate_success_inversion (topic tn key t qid : String)
    (s2 : Stage2Env) (pt gat : Nat) (raw : List (String × PV))
    (st : ProgressState) (q : GeneratedQuestion) (b : Bool)
    (ht : t ≠ "") (hp : parse_llama_response t topic = some raw)
    (h : generate_question_with_progress topic tn key (some t) s2 qid pt
      gat = (st, some q, b)) :
    ∃ refined, (refined = raw ∨ ∃ content d,
        s2.chat = Stage2Result.reply content ∧
        parse_question_response content = some d ∧ refined = d) ∧
      assembleQuestion refined qid topic pt gat = some q := by
  have step : generate_question_with_progress topic tn key (some t) s2 qid
      pt gat =
      (match assembleQuestion
          (if (refine_with_deepseek raw tn key s2).1.isEmpty then raw
           else (refine_with_deepseek raw tn key s2).1) qid topic pt gat with
       | some question =>
         (⟨ProgressStage.COMPLETE, 100, mkCompleteMessage pt⟩, some question,
           (refine_with_deepseek raw tn key s2).2)
       | none =>
         (⟨ProgressStage.ERROR, 85, "Error: question assembly failed"⟩, none,
           (refine_with_deepseek raw tn key s2).2)) := by
    simp only [generate_question_with_progress]
    rw [if_neg ht, hp]
  rw [step] at h
  rcases refine_result_cases raw tn key s2 with hr1 | ⟨content, d, hch, hpd, hr1⟩
  · rw [hr1, ite_self] at h
    cases hasm : assembleQuestion raw qid topic pt gat with
    | none => rw [hasm] at h; simp [Prod.ext_iff] at h
    | some q1 =>
      rw [hasm] at h
      simp only [Prod.mk.injEq, Option.some.injEq] at h
      exact ⟨raw, Or.inl rfl, by rw [hasm, h.2.1]⟩
  · rw [hr1] at h
    by_cases hde : d.isEmpty
    · rw [if_pos hde] at h
      cases hasm : assembleQuestion raw qid topic pt gat with
      | none => rw [hasm] at h; simp [Prod.ext_iff] at h
      | some q1 =>
        rw [hasm] at h
        simp only [Prod.mk.injEq, Option.some.injEq] at h
        exact ⟨raw, Or.inl rfl, by rw [hasm, h.2.1]⟩
    · rw [if_neg hde] at h
      cases hasm : assembleQuestion d qid topic pt gat with
      | none => rw [hasm] at h; simp [Prod.ext_iff] at h
      | some q1 =>
        rw [hasm] at h
        simp only [Prod.mk.injEq, Option.some.injEq] at h
        exact ⟨d, Or.inr ⟨content, d, hch, hpd, rfl⟩, by rw [hasm, h.2.1]⟩

/-- C9 amended: every question returned by a successful pipeline run has
exactly 4 options, each stored with its letter label attached at assembly
time, and its correct answer is one of the strings A-D (so it indexes a
valid option). -/
theorem question_invariant (topic tn key qid : String)
    (lit : Option String) (s2 : Stage2Env) (pt gat : Nat)
    (st : ProgressState) (q : GeneratedQuestion) (b : Bool)
    (h : generate_question_with_progress topic tn key lit s2 qid pt gat =
      (st, some q, b)) :
    q.options.length = 4 ∧
    (∃ ca, q.correct_answer = PV.pstr ca ∧
      (ca = "A" ∨ ca = "B" ∨ ca = "C" ∨ ca = "D")) ∧
    (∀ j, j < 4 → ∃ s1, q.options[j]? = some (optionLabel j ++ s1)) := by
  cases lit with
  | none => simp [generate_question_with_progress, Prod.ext_iff] at h
  | some t =>
    by_cases ht : t = ""
    · subst ht
      simp [generate_question_with_progress, Prod.ext_iff] at h
    · cases hp : parse_llama_response t topic with
      | none =>
        have step : generate_question_with_progress topic tn key (some t) s2
            qid pt gat =
            (⟨ProgressStage.ERROR, 25,
              "Error: Failed to parse Llama model response"⟩, none, false) := by
          simp only [generate_question_with_progress]
          rw [if_neg ht, hp]
        rw [step] at h
        simp [Prod.ext_iff] at h
      | some raw =>
        obtain ⟨refined, hcase, hasm⟩ :=
          generate_success_inversion topic tn key t qid s2 pt gat raw st q b
            ht hp h
        rcases hcase with hre | ⟨content, d, hch, hpd, hre⟩
        · subst hre
          obtain ⟨q0, opts0, a0, hc, hlen0, hans0⟩ :=
            parse_llama_shape t topic refined hp
          subst hc
          refine final_question_shape _ qid topic pt gat q ?_ ?_ hasm
          · exact ⟨opts0.map (fun o => PV.pstr (String.mk o)), rfl,
              by rw [List.length_map]; exact hlen0⟩
          · exact ⟨a0, rfl, hans0⟩
        · subst hre
          obtain ⟨_, hopts, hca, _⟩ := parse_question_shape content refined hpd
          exact final_question_shape _ qid topic pt gat q hopts hca hasm

/-- C9 amended witness: the concrete scenario run's question has 4 labeled
options and answer letter `A`. -/
theorem question_invariant_witness :
    velocityScenarioQuestion.options.length = 4 ∧
    (∃ ca, velocityScenarioQuestion.correct_answer = PV.pstr ca ∧
      (ca = "A" ∨ ca = "B" ∨ ca = "C" ∨ ca = "D")) ∧
    (∃ s1, velocityScenarioQuestion.options[0]? =
      some (optionLabel 0 ++ s1)) :=
  ⟨(question_invariant "kinematics" "Kinematics" "" "id"
      (some velocityScenario) ⟨"", "", "", Stage2Result.transportError⟩ 1234
      0 ⟨ProgressStage.COMPLETE, 100, mkCompleteMessage 1234⟩
      velocityScenarioQuestion false rfl).1,
   (question_invariant "kinematics" "Kinematics" "" "id"
      (some velocityScenario) ⟨"", "", "", Stage2Result.transportError⟩ 1234
      0 ⟨ProgressStage.COMPLETE, 100, mkCompleteMessage 1234⟩
      velocityScenarioQuestion false rfl).2.1,
   (question_invariant "kinematics" "Kinematics" "" "id"
      (some velocityScenario) ⟨"", "", "", Stage2Result.transportError⟩ 1234
      0 ⟨ProgressStage.COMPLETE, 100, mkCompleteMessage 1234⟩
      velocityScenarioQuestion false rfl).2.2 0 (by decide)⟩
